import Mathlib

/-!
Verification of the sales-report pipeline in `Lab_12.py`.

The program has three stages: `generate_sales_data` (synthetic dataset,
seeded RNG), `create_dashboard` (a line chart over the dataset and a bar
chart over a group-by-category sum), and `save_report` / `main`
(filename validation, extension handling, top-level error handling).

Modelling conventions:
* A pandas `Timestamp` is modelled as a natural number of days since the
  fixed epoch 2023-01-01 (day 0 of the model); `freq='3D'` is a step of 3.
* numpy's seeded global random source is an external library; we model its
  documented contract (a deterministic stream from a seed; `randint(lo, hi)`
  uniform in `[lo, hi)`; `choice` returning elements of the given list) with
  an explicit linear-congruential state, passed and returned explicitly.
  `np.random.seed(42)` replaces whatever state existed with the state
  determined by seed 42.
* pandas raising `ValueError` on a negative `periods` and file writes are
  modelled with `Except`; the file system is an oracle a run receives.
-/

set_option maxRecDepth 10000

/-- Internal state of the modelled numpy global random source. -/
abbrev RngState := Nat

/-- Model of `np.random.seed`: the state after seeding is a function of the
seed alone, independent of prior state. -/
def npSeed (seed : Nat) : RngState := seed

/-- One step of the modelled random stream: a 64-bit linear-congruential
update; the drawn value is taken from the high bits. -/
def rngNext (s : RngState) : Nat × RngState :=
  let s' := (s * 6364136223846793005 + 1442695040888963407) % (2 ^ 64)
  (s' / 2 ^ 33, s')

/-- Model of `np.random.choice(xs, ·)` for one draw: a uniformly chosen
element of `xs`. -/
def randChoice (xs : List String) (s : RngState) : String × RngState :=
  let p := rngNext s
  (xs.getD (p.1 % xs.length) "", p.2)

/-- Model of `np.random.randint(lo, hi, ·)` for one draw: a uniform value in
`[lo, hi)`. -/
def randIntRange (lo hi : Nat) (s : RngState) : Nat × RngState :=
  let p := rngNext s
  (lo + p.1 % (hi - lo), p.2)

/-- Draw `n` values in sequence from the random source, threading state:
models the size argument of `np.random.choice` / `np.random.randint`. -/
def drawN (f : RngState → α × RngState) : Nat → RngState → List α × RngState
  | 0, s => ([], s)
  | n + 1, s =>
    let p := f s
    let rest := drawN f n p.2
    (p.1 :: rest.1, rest.2)

/-- The fixed category set of `generate_sales_data`. -/
def categories : List String :=
  ["Electronics", "Clothing", "Home", "Garden", "Toys", "Sports"]

/-- One row of the dataset: `Date` is days since 2023-01-01. -/
structure Record where
  date : Nat
  category : String
  sales : Nat
  profit : Nat
deriving DecidableEq, Repr

/-- Model of `pd.date_range(start='2023-01-01', periods, freq='3D')` for a
non-negative `periods`: day offsets `0, 3, 6, ...` from the epoch. -/
def dateRange3D (periods : Nat) : List Nat :=
  (List.range periods).map (fun i => 3 * i)

/-- Assemble the column lists of the `data` dict into rows, as
`pd.DataFrame(data)` aligns the columns positionally. -/
def mkRecords : List Nat → List String → List Nat → List Nat → List Record
  | d :: ds, c :: cs, x :: xs, p :: ps =>
    ⟨d, c, x, p⟩ :: mkRecords ds cs xs ps
  | _, _, _, _ => []

/-- Comparison used by `df.sort_values('Date')`. -/
def dateLe (a b : Record) : Prop := a.date ≤ b.date

instance : DecidableRel dateLe := fun a b => Nat.decLe a.date b.date

instance : IsTotal Record dateLe := ⟨fun a b => Nat.le_total a.date b.date⟩

instance : IsTrans Record dateLe := ⟨fun _ _ _ => Nat.le_trans⟩

/-- Body of `generate_sales_data` for a non-negative row count `rows`:
seed the random source with 42, build the four columns (dates with a 3-day
step, categories, sales in `[100, 1000)`, profit in `[10, 300)`), assemble
the DataFrame and sort it by `Date`.  The incoming random state `_s0` is
discarded by `np.random.seed(42)`.  Returns the dataset and the final
random state. -/
def generateCore (rows : Nat) (_s0 : RngState) : List Record × RngState :=
  let s1 := npSeed 42
  let dates := dateRange3D rows
  let cats := drawN (randChoice categories) rows s1
  let salesCol := drawN (randIntRange 100 1000) rows cats.2
  let profitCol := drawN (randIntRange 10 300) rows salesCol.2
  let df := mkRecords dates cats.1 salesCol.1 profitCol.1
  (List.insertionSort dateLe df, profitCol.2)

/-- The dataset of `generateCore` before the `sort_values` call, written out
as a standalone term for reasoning; `generateCore` returns its sort. -/
def rawRecords (rows : Nat) : List Record :=
  let s1 := npSeed 42
  let cats := drawN (randChoice categories) rows s1
  let salesCol := drawN (randIntRange 100 1000) rows cats.2
  let profitCol := drawN (randIntRange 10 300) rows salesCol.2
  mkRecords (dateRange3D rows) cats.1 salesCol.1 profitCol.1

/-- Model of `generate_sales_data(rows)`: for a negative `rows` the first
column constructor, `pd.date_range`, raises `ValueError`; otherwise the
dataset is produced by `generateCore`. -/
def generate_sales_data (rows : Int) (s0 : RngState) :
    Except String (List Record × RngState) :=
  if rows < 0 then
    Except.error "periods must be a non-negative integer"
  else
    Except.ok (generateCore rows.toNat s0)

/-- Total sales of category `c` in the dataset: the `Sales` sum of the rows
whose `Category` equals `c`. -/
def totalSalesFor (df : List Record) (c : String) : Nat :=
  ((df.filter (fun r => decide (r.category = c))).map (fun r => r.sales)).sum

/-- Lexicographic code-point order on strings, the order in which pandas
sorts string group keys. -/
def strLe (a b : String) : Prop := a.data ≤ b.data

instance : DecidableRel strLe := fun a b =>
  inferInstanceAs (Decidable (a.data ≤ b.data))

instance : IsTotal String strLe := ⟨fun a b => le_total a.data b.data⟩

instance : IsTrans String strLe := ⟨fun _ _ _ => le_trans⟩

/-- The group keys produced by `df.groupby('Category')`: the distinct
`Category` values of `df`, in ascending lexicographic order (pandas groups
with its default `sort=True`). -/
def groupKeys (df : List Record) : List String :=
  List.insertionSort strLe (df.map (fun r => r.category)).dedup

/-- Model of `df.groupby('Category')['Sales'].sum().reset_index()`: one
`(Category, TotalSales)` row per distinct category, rows in the sorted key
order pandas produces. -/
def groupByCategorySum (df : List Record) : List (String × Nat) :=
  (groupKeys df).map (fun c => (c, totalSalesFor df c))

/-- The parts of the Bokeh layout built by `create_dashboard` that carry
data: the line/scatter source (the dataset itself), the grouped bar source,
and the bar chart's `x_range` factor list (`categories_list`). -/
structure Dashboard where
  lineSource : List Record
  grouped : List (String × Nat)
  barFactors : List String
deriving DecidableEq, Repr

/-- Model of `create_dashboard(df)`: the line chart binds `df` directly;
`df_grouped` is the group-by-category sales sum; `categories_list`, the bar
chart's factor domain, is the `Category` column of `df_grouped`. -/
def create_dashboard (df : List Record) : Dashboard :=
  let dfGrouped := groupByCategorySum df
  let categoriesList := dfGrouped.map Prod.fst
  { lineSource := df, grouped := dfGrouped, barFactors := categoriesList }

/-- Order of first appearance of the categories of `df`, for comparison with
the spec's claim about the aggregation order (a spec-side notion; the code
itself never computes this). -/
def firstAppearanceOrder (df : List Record) : List String :=
  df.foldl (fun acc r => if r.category ∈ acc then acc else acc ++ [r.category]) []

/-- Outcome printed by `main`: the success message, the `ValueError` branch
(`Помилка вводу`), or the `OSError` branch (`Помилка доступу до файлової
системи`). -/
inductive Outcome where
  | success (path : String)
  | inputError (msg : String)
  | ioError (msg : String)
deriving DecidableEq, Repr

/-- Observable trace of one run of `main`: whether data generation and
dashboard construction executed, the dataset that was generated, the target
path computed from the user's filename, the path actually written (if the
write succeeded), the reported outcome, and the process exit code. -/
structure RunTrace where
  generated : Bool
  built : Bool
  dataset : Option (List Record)
  targetPath : Option String
  fileWritten : Option String
  outcome : Outcome
  exitCode : Nat
deriving DecidableEq, Repr

/-- Model of Python's `str.strip()`: drop whitespace from both ends. -/
def pyStrip (s : String) : String :=
  ⟨(((s.data.dropWhile Char.isWhitespace).reverse).dropWhile
      Char.isWhitespace).reverse⟩

/-- Model of Python's `str.endswith(suffix)`. -/
def pyEndsWith (s suffix : String) : Bool :=
  suffix.data.isSuffixOf s.data

/-- Extension handling of `main`: append `.html` unless the name already
ends with it. -/
def resolveFilename (name : String) : String :=
  if pyEndsWith name ".html" then name else name ++ ".html"

/-- Model of `main()`.  `input` is the line read from the user, `write` the
file-system oracle used by `save_report` (`Except.error` models `OSError`),
`s0` the numpy global random state at process start.  The input is stripped;
a blank name raises `ValueError`, caught at the top level before any data is
generated; otherwise the extension is resolved, `generate_sales_data()` runs
with its default of 100 rows, the dashboard is built and the write is
attempted.  Every branch returns normally, so the exit code is 0 on each
path. -/
def pymain (input : String) (write : String → Except String Unit)
    (s0 : RngState) : RunTrace :=
  let name := pyStrip input
  if name = "" then
    { generated := false, built := false, dataset := none, targetPath := none,
      fileWritten := none,
      outcome := Outcome.inputError "Ім\x27я файлу не може бути порожнім.",
      exitCode := 0 }
  else
    let fname := resolveFilename name
    let df := (generateCore 100 s0).1
    let _layout := create_dashboard df
    match write fname with
    | Except.ok _ =>
      { generated := true, built := true, dataset := some df,
        targetPath := some fname, fileWritten := some fname,
        outcome := Outcome.success fname, exitCode := 0 }
    | Except.error e =>
      { generated := true, built := true, dataset := some df,
        targetPath := some fname, fileWritten := none,
        outcome := Outcome.ioError e, exitCode := 0 }

/-- Invariant of one generated row: the category is drawn from the fixed
six-element set, sales lie in `[100, 1000)` and profit in `[10, 300)`. -/
def recordValid (r : Record) : Prop :=
  r.category ∈ categories ∧ 100 ≤ r.sales ∧ r.sales < 1000 ∧
    10 ≤ r.profit ∧ r.profit < 300

/-- Every row of the list satisfies `recordValid`. -/
def allRecordsValid (l : List Record) : Prop := ∀ r ∈ l, recordValid r

/-- Shape of the generated dataset: exactly `rows` records, the `i`-th dated
`3 * i` days after the 2023-01-01 epoch (start at the epoch, 3-day step, in
generation order), and the whole list sorted non-decreasing by date. -/
def datesSpec (l : List Record) (rows : Nat) : Prop :=
  l.length = rows ∧
  (∀ i (hi : i < l.length), (l.get ⟨i, hi⟩).date = 3 * i) ∧
  List.Sorted dateLe l

/-- Shape of the aggregated bar data: its category column is sorted in
ascending lexicographic order, has no duplicates, contains exactly the
categories present in the dataset, each aggregated row carries the total
sales of its category, and the bar chart's factor domain is that category
column. -/
def sortedAggregationSpec (df : List Record) : Prop :=
  ((create_dashboard df).grouped.map Prod.fst).Sorted strLe ∧
  ((create_dashboard df).grouped.map Prod.fst).Nodup ∧
  (∀ c, c ∈ (create_dashboard df).grouped.map Prod.fst ↔
    c ∈ df.map (fun r => r.category)) ∧
  (∀ p ∈ (create_dashboard df).grouped, p.2 = totalSalesFor df p.1) ∧
  (create_dashboard df).barFactors = (create_dashboard df).grouped.map Prod.fst

/-- A two-row dataset whose first-appearance category order, `Toys` before
`Clothing`, differs from the sorted order. -/
def exampleDF : List Record :=
  [⟨0, "Toys", 5, 1⟩, ⟨3, "Clothing", 7, 2⟩]

/-- The dataset every run of `main` feeds to the dashboard:
`generate_sales_data` at its default of 100 rows.  A fixed value: the row
count is never taken from user input, and the seeded generator ignores the
ambient random state. -/
def defaultDataset : List Record := (generateCore 100 0).1

/-! ## Supporting lemmas: the generator -/

theorem drawN_length {α : Type} (f : RngState → α × RngState) :
    ∀ (n : Nat) (s : RngState), ((drawN f n s).1).length = n
  | 0, _ => rfl
  | n + 1, s => by
    simp [drawN, drawN_length f n]

theorem drawN_mem {α : Type} (f : RngState → α × RngState) (P : α → Prop)
    (hf : ∀ s, P (f s).1) :
    ∀ (n : Nat) (s : RngState), ∀ x ∈ (drawN f n s).1, P x
  | 0, _, x, hx => by simp [drawN] at hx
  | n + 1, s, x, hx => by
    simp only [drawN, List.mem_cons] at hx
    rcases hx with h | h
    · exact h ▸ hf s
    · exact drawN_mem f P hf n (f s).2 x h

theorem randChoice_mem (xs : List String) (s : RngState) (hxs : xs ≠ []) :
    (randChoice xs s).1 ∈ xs := by
  have hlen : 0 < xs.length := List.length_pos.mpr hxs
  have hlt : (rngNext s).1 % xs.length < xs.length := Nat.mod_lt _ hlen
  show xs.getD ((rngNext s).1 % xs.length) "" ∈ xs
  rw [List.getD_eq_getElem xs "" hlt]
  exact List.getElem_mem hlt

theorem randIntRange_bounds (lo hi : Nat) (s : RngState) (h : lo < hi) :
    lo ≤ (randIntRange lo hi s).1 ∧ (randIntRange lo hi s).1 < hi := by
  have hpos : 0 < hi - lo := Nat.sub_pos_of_lt h
  have hlt : (rngNext s).1 % (hi - lo) < hi - lo := Nat.mod_lt _ hpos
  constructor
  · exact Nat.le_add_right lo _
  · have := Nat.add_lt_add_left hlt lo
    simpa [randIntRange, Nat.add_sub_cancel' (Nat.le_of_lt h)] using this

theorem mkRecords_mem :
    ∀ (ds : List Nat) (cs : List String) (xs ps : List Nat) (r : Record),
      r ∈ mkRecords ds cs xs ps →
      r.category ∈ cs ∧ r.sales ∈ xs ∧ r.profit ∈ ps
  | d :: ds, c :: cs, x :: xs, p :: ps, r, hr => by
    rcases List.mem_cons.mp hr with h | h
    · subst h
      exact ⟨List.mem_cons_self _ _, List.mem_cons_self _ _, List.mem_cons_self _ _⟩
    · obtain ⟨hc, hx, hp⟩ := mkRecords_mem ds cs xs ps r h
      exact ⟨List.mem_cons_of_mem _ hc, List.mem_cons_of_mem _ hx,
        List.mem_cons_of_mem _ hp⟩
  | [], _, _, _, _, hr => by simp [mkRecords] at hr
  | _ :: _, [], _, _, _, hr => by simp [mkRecords] at hr
  | _ :: _, _ :: _, [], _, _, hr => by simp [mkRecords] at hr
  | _ :: _, _ :: _, _ :: _, [], _, hr => by simp [mkRecords] at hr

theorem mkRecords_length :
    ∀ (ds : List Nat) (cs : List String) (xs ps : List Nat),
      cs.length = ds.length → xs.length = ds.length → ps.length = ds.length →
      (mkRecords ds cs xs ps).length = ds.length
  | [], [], [], [], _, _, _ => rfl
  | [], [], [], _ :: _, _, _, h3 => by simp at h3
  | [], [], _ :: _, _, _, h2, _ => by simp at h2
  | [], _ :: _, _, _, h1, _, _ => by simp at h1
  | _ :: _, [], _, _, h1, _, _ => by simp at h1
  | _ :: _, _ :: _, [], _, _, h2, _ => by simp at h2
  | _ :: _, _ :: _, _ :: _, [], _, _, h3 => by simp at h3
  | d :: ds, c :: cs, x :: xs, p :: ps, h1, h2, h3 => by
    have := mkRecords_length ds cs xs ps (by simpa using h1) (by simpa using h2)
      (by simpa using h3)
    simp [mkRecords, this]

theorem mkRecords_date :
    ∀ (ds : List Nat) (cs : List String) (xs ps : List Nat) (i : Nat)
      (hi : i < (mkRecords ds cs xs ps).length) (hd : i < ds.length),
      ((mkRecords ds cs xs ps).get ⟨i, hi⟩).date = ds.get ⟨i, hd⟩
  | d :: ds, c :: cs, x :: xs, p :: ps, 0, _, _ => rfl
  | d :: ds, c :: cs, x :: xs, p :: ps, i + 1, hi, hd => by
    have hi' : i < (mkRecords ds cs xs ps).length := by
      simpa [mkRecords] using hi
    have hd' : i < ds.length := by simpa using hd
    simpa [mkRecords] using mkRecords_date ds cs xs ps i hi' hd'
  | [], _, _, _, i, hi, hd => by simp at hd
  | _ :: _, [], _, _, i, hi, _ => by simp [mkRecords] at hi
  | _ :: _, _ :: _, [], _, i, hi, _ => by simp [mkRecords] at hi
  | _ :: _, _ :: _, _ :: _, [], i, hi, _ => by simp [mkRecords] at hi

theorem generateCore_fst (rows : Nat) (s : RngState) :
    (generateCore rows s).1 = List.insertionSort dateLe (rawRecords rows) := rfl

theorem rawRecords_length (rows : Nat) : (rawRecords rows).length = rows := by
  have hd : (dateRange3D rows).length = rows := by simp [dateRange3D]
  unfold rawRecords
  rw [mkRecords_length]
  · exact hd
  · rw [drawN_length, hd]
  · rw [drawN_length, hd]
  · rw [drawN_length, hd]

theorem rawRecords_date (rows : Nat) (i : Nat) (hi : i < (rawRecords rows).length) :
    ((rawRecords rows).get ⟨i, hi⟩).date = 3 * i := by
  have hd : i < (dateRange3D rows).length := by
    simpa [dateRange3D, rawRecords_length] using hi
  have h1 : ((rawRecords rows).get ⟨i, hi⟩).date = (dateRange3D rows).get ⟨i, hd⟩ :=
    mkRecords_date _ _ _ _ i hi hd
  rw [h1]
  simp [dateRange3D]

theorem rawRecords_sorted (rows : Nat) : List.Sorted dateLe (rawRecords rows) := by
  rw [List.Sorted, List.pairwise_iff_getElem]
  intro i j hi hj hij
  have di : (rawRecords rows)[i].date = 3 * i := by
    simpa [List.get_eq_getElem] using rawRecords_date rows i hi
  have dj : (rawRecords rows)[j].date = 3 * j := by
    simpa [List.get_eq_getElem] using rawRecords_date rows j hj
  show dateLe _ _
  rw [dateLe, di, dj]
  omega

theorem generateCore_eq_raw (rows : Nat) (s : RngState) :
    (generateCore rows s).1 = rawRecords rows := by
  rw [generateCore_fst]
  exact (rawRecords_sorted rows).insertionSort_eq

theorem generateCore_length (rows : Nat) (s : RngState) :
    ((generateCore rows s).1).length = rows := by
  rw [generateCore_eq_raw, rawRecords_length]

theorem generateCore_mem (rows : Nat) (s : RngState) (r : Record)
    (hr : r ∈ (generateCore rows s).1) :
    r.category ∈ categories ∧ 100 ≤ r.sales ∧ r.sales < 1000 ∧
      10 ≤ r.profit ∧ r.profit < 300 := by
  rw [generateCore_eq_raw] at hr
  unfold rawRecords at hr
  obtain ⟨hc, hx, hp⟩ := mkRecords_mem _ _ _ _ r hr
  refine ⟨?_, ?_, ?_, ?_, ?_⟩
  · exact drawN_mem _ (fun c => c ∈ categories)
      (fun s => randChoice_mem categories s (by simp [categories])) rows _ _ hc
  · exact (drawN_mem _ (fun v => 100 ≤ v ∧ v < 1000)
      (fun s => randIntRange_bounds 100 1000 s (by omega)) rows _ _ hx).1
  · exact (drawN_mem _ (fun v => 100 ≤ v ∧ v < 1000)
      (fun s => randIntRange_bounds 100 1000 s (by omega)) rows _ _ hx).2
  · exact (drawN_mem _ (fun v => 10 ≤ v ∧ v < 300)
      (fun s => randIntRange_bounds 10 300 s (by omega)) rows _ _ hp).1
  · exact (drawN_mem _ (fun v => 10 ≤ v ∧ v < 300)
      (fun s => randIntRange_bounds 10 300 s (by omega)) rows _ _ hp).2

/-! ## Supporting lemmas: the aggregation -/

theorem totalSalesFor_nil (c : String) : totalSalesFor [] c = 0 := rfl

theorem totalSalesFor_cons (r : Record) (t : List Record) (c : String) :
    totalSalesFor (r :: t) c =
      (if r.category = c then r.sales else 0) + totalSalesFor t c := by
  unfold totalSalesFor
  rw [List.filter_cons]
  by_cases h : r.category = c
  · simp [h]
  · simp [h]

theorem sum_ite_eq_of_mem (keys : List String) (c : String) (v : Nat)
    (hnd : keys.Nodup) (hc : c ∈ keys) :
    (keys.map fun k => if c = k then v else 0).sum = v := by
  induction keys with
  | nil => cases hc
  | cons k t ih =>
    rcases List.mem_cons.mp hc with h | h
    · subst h
      have hct : c ∉ t := (List.nodup_cons.mp hnd).1
      have hz : (t.map fun k => if c = k then v else 0).sum = 0 := by
        apply List.sum_eq_zero
        intro x hx
        obtain ⟨k', hk', hxe⟩ := List.mem_map.mp hx
        have : c ≠ k' := fun he => hct (he ▸ hk')
        simp [this] at hxe
        omega
      simp [hz]
    · have hk : c ≠ k := by
        rintro rfl
        exact (List.nodup_cons.mp hnd).1 h
      simp [hk, ih (List.nodup_cons.mp hnd).2 h]

theorem sum_totalSalesFor (keys : List String) (hnd : keys.Nodup)
    (df : List Record) (hcov : ∀ r ∈ df, r.category ∈ keys) :
    (keys.map fun k => totalSalesFor df k).sum = (df.map fun r => r.sales).sum := by
  induction df with
  | nil => simp [totalSalesFor_nil]
  | cons r t ih =>
    have hrk : r.category ∈ keys := hcov r (List.mem_cons_self r t)
    have hcov' : ∀ x ∈ t, x.category ∈ keys := fun x hx =>
      hcov x (List.mem_cons_of_mem r hx)
    calc (keys.map fun k => totalSalesFor (r :: t) k).sum
        = (keys.map fun k =>
            (if r.category = k then r.sales else 0) + totalSalesFor t k).sum := by
          simp only [totalSalesFor_cons]
      _ = (keys.map fun k => if r.category = k then r.sales else 0).sum +
            (keys.map fun k => totalSalesFor t k).sum := List.sum_map_add
      _ = r.sales + (t.map fun x => x.sales).sum := by
          rw [sum_ite_eq_of_mem keys r.category r.sales hnd hrk, ih hcov']
      _ = ((r :: t).map fun x => x.sales).sum := by simp

theorem groupKeys_nodup (df : List Record) : (groupKeys df).Nodup :=
  ((List.perm_insertionSort strLe _).nodup_iff).mpr (List.nodup_dedup _)

theorem mem_groupKeys (df : List Record) (c : String) :
    c ∈ groupKeys df ↔ c ∈ df.map (fun r => r.category) := by
  rw [groupKeys, List.Perm.mem_iff (List.perm_insertionSort strLe _), List.mem_dedup]

theorem groupKeys_sorted (df : List Record) : List.Sorted strLe (groupKeys df) :=
  List.sorted_insertionSort strLe _

theorem groupByCategorySum_fst (df : List Record) :
    (groupByCategorySum df).map Prod.fst = groupKeys df := by
  simp [groupByCategorySum, List.map_map, Function.comp_def]

/-! ## Claim theorems -/

/-- C1 (counterexample): on the dataset `exampleDF`, whose categories first
appear in the order `Toys`, `Clothing`, the aggregation of
`create_dashboard` lists its categories as `Clothing`, `Toys` — pandas
groupby re-sorts the keys — so the claimed first-appearance order is
false. -/
theorem c1_aggregation_order_counterexample :
    (create_dashboard exampleDF).grouped.map Prod.fst = ["Clothing", "Toys"] ∧
    firstAppearanceOrder exampleDF = ["Toys", "Clothing"] ∧
    (create_dashboard exampleDF).grouped.map Prod.fst ≠
      firstAppearanceOrder exampleDF := by
  refine ⟨by decide, by decide, by decide⟩

/-- C1 (amended): for every dataset, `create_dashboard` aggregates by
grouping rows on `Category` and summing `Sales`, one row per distinct
category, and the categories appear in ascending lexicographic order (the
sorted group keys of pandas groupby), not in first-appearance order; the
bar chart's factor domain is exactly that category column. -/
theorem c1_aggregation_order_amended (df : List Record) :
    sortedAggregationSpec df := by
  have hg : (create_dashboard df).grouped = groupByCategorySum df := rfl
  have hfst : (create_dashboard df).grouped.map Prod.fst = groupKeys df := by
    rw [hg, groupByCategorySum_fst]
  refine ⟨?_, ?_, ?_, ?_, rfl⟩
  · rw [hfst]; exact groupKeys_sorted df
  · rw [hfst]; exact groupKeys_nodup df
  · intro c; rw [hfst]; exact mem_groupKeys df c
  · intro p hp
    rw [hg] at hp
    obtain ⟨c, hc, rfl⟩ := List.mem_map.mp hp
    rfl

/-- C1 (witness): the amended statement at the concrete dataset
`exampleDF`. -/
theorem c1_aggregation_order_amended_witness : sortedAggregationSpec exampleDF :=
  c1_aggregation_order_amended exampleDF

/-- C2: `generate_sales_data` is deterministic — for any row count, two
calls return bit-identical results (dataset and final random state)
regardless of the random states `s1`, `s2` established before each call,
because `np.random.seed(42)` discards the prior state. -/
theorem c2_generate_deterministic (rows : Int) (s1 s2 : RngState) :
    generate_sales_data rows s1 = generate_sales_data rows s2 := rfl

/-- C3: aggregation law — the sum of `TotalSales` over the aggregated rows
of `create_dashboard` equals the sum of `Sales` over all dataset
records. -/
theorem c3_aggregation_law (df : List Record) :
    ((create_dashboard df).grouped.map Prod.snd).sum =
      (df.map fun r => r.sales).sum := by
  have hcov : ∀ r ∈ df, r.category ∈ groupKeys df := fun r hr =>
    (mem_groupKeys df r.category).mpr (List.mem_map_of_mem _ hr)
  have hsnd : (create_dashboard df).grouped.map Prod.snd =
      (groupKeys df).map fun k => totalSalesFor df k := by
    show (groupByCategorySum df).map Prod.snd = _
    simp [groupByCategorySum, List.map_map, Function.comp_def]
  rw [hsnd]
  exact sum_totalSalesFor (groupKeys df) (groupKeys_nodup df) df hcov

/-- C4: every record of the dataset returned by `generate_sales_data` for a
positive row count has a category from the fixed six-element set, sales in
`[100, 1000)` and profit in `[10, 300)`. -/
theorem c4_generate_bounds (rows : Int) (s : RngState) (h : 0 < rows)
    (l : List Record) (st : RngState)
    (hret : generate_sales_data rows s = Except.ok (l, st)) :
    allRecordsValid l := by
  unfold generate_sales_data at hret
  rw [if_neg (by omega)] at hret
  have hpair := Except.ok.inj hret
  have hl : l = (generateCore rows.toNat s).1 := by rw [hpair]
  intro r hr
  exact generateCore_mem rows.toNat s r (hl ▸ hr)

/-- C4 (witness): the invariant evaluated on the 3-row dataset. -/
theorem c4_generate_bounds_witness : allRecordsValid (generateCore 3 0).1 :=
  c4_generate_bounds 3 0 (by decide) (generateCore 3 0).1 (generateCore 3 0).2 rfl

/-- C5: for a positive row count, `generate_sales_data` returns exactly that
many records, the `i`-th dated `3 * i` days after the 2023-01-01 epoch
(start at the epoch, fixed 3-day step, in generation order), and the
dataset is sorted non-decreasing by date. -/
theorem c5_generate_dates (rows : Int) (s : RngState) (h : 0 < rows)
    (l : List Record) (st : RngState)
    (hret : generate_sales_data rows s = Except.ok (l, st)) :
    datesSpec l rows.toNat := by
  unfold generate_sales_data at hret
  rw [if_neg (by omega)] at hret
  have hpair := Except.ok.inj hret
  have hl : l = (generateCore rows.toNat s).1 := by rw [hpair]
  subst hl
  rw [generateCore_eq_raw]
  exact ⟨rawRecords_length rows.toNat,
    fun i hi => rawRecords_date rows.toNat i hi,
    rawRecords_sorted rows.toNat⟩

/-- C5 (witness): the dates specification evaluated for 3 rows. -/
theorem c5_generate_dates_witness : datesSpec (generateCore 3 0).1 3 :=
  c5_generate_dates 3 0 (by decide) (generateCore 3 0).1 (generateCore 3 0).2 rfl

/-- C6: in a run of `main` with a filename that is non-empty after
stripping, the target path is the stripped name itself when it already ends
with `.html` and the stripped name with `.html` appended otherwise. -/
theorem c6_filename_extension (s : String) (w : String → Except String Unit)
    (s0 : RngState) (h : pyStrip s ≠ "") :
    (pymain s w s0).targetPath = some (resolveFilename (pyStrip s)) ∧
    (pyEndsWith (pyStrip s) ".html" = true →
      resolveFilename (pyStrip s) = pyStrip s) ∧
    (pyEndsWith (pyStrip s) ".html" = false →
      resolveFilename (pyStrip s) = pyStrip s ++ ".html") := by
  refine ⟨?_, ?_, ?_⟩
  · cases hw : w (resolveFilename (pyStrip s)) <;> simp [pymain, h, hw]
  · intro he; simp [resolveFilename, he]
  · intro he; simp [resolveFilename, he]

/-- C6 (witness): input `report` resolves to path `report.html`; input
`report.html` is left unchanged. -/
theorem c6_filename_extension_witness :
    (pymain "report" (fun _ => Except.ok ()) 0).targetPath =
      some "report.html" ∧
    resolveFilename "report.html" = "report.html" := by
  constructor
  · have h := (c6_filename_extension "report" (fun _ => Except.ok ()) 0
      (by decide)).1
    have e : resolveFilename (pyStrip "report") = "report.html" := by decide
    rw [e] at h
    exact h
  · have h := (c6_filename_extension "report.html" (fun _ => Except.ok ()) 0
      (by decide)).2.1 (by decide)
    have e : pyStrip "report.html" = "report.html" := by decide
    rw [e] at h
    exact h

/-- C7: a filename that is blank after stripping makes the run fail with the
`ValueError` input message: no data generation, no dashboard construction,
no write attempt, no file produced, and the run still exits with code 0. -/
theorem c7_blank_filename (s : String) (w : String → Except String Unit)
    (s0 : RngState) (h : pyStrip s = "") :
    (pymain s w s0).generated = false ∧
    (pymain s w s0).built = false ∧
    (pymain s w s0).dataset = none ∧
    (pymain s w s0).targetPath = none ∧
    (pymain s w s0).fileWritten = none ∧
    (pymain s w s0).outcome =
      Outcome.inputError "Ім\x27я файлу не може бути порожнім." ∧
    (pymain s w s0).exitCode = 0 := by
  refine ⟨?_, ?_, ?_, ?_, ?_, ?_, ?_⟩ <;> simp [pymain, h]

/-- C7 (witness): the blank input of the end-to-end scenario. -/
theorem c7_blank_filename_witness :
    (pymain "  " (fun _ => Except.ok ()) 0).generated = false ∧
    (pymain "  " (fun _ => Except.ok ()) 0).built = false ∧
    (pymain "  " (fun _ => Except.ok ()) 0).dataset = none ∧
    (pymain "  " (fun _ => Except.ok ()) 0).targetPath = none ∧
    (pymain "  " (fun _ => Except.ok ()) 0).fileWritten = none ∧
    (pymain "  " (fun _ => Except.ok ()) 0).outcome =
      Outcome.inputError "Ім\x27я файлу не може бути порожнім." ∧
    (pymain "  " (fun _ => Except.ok ()) 0).exitCode = 0 :=
  c7_blank_filename "  " (fun _ => Except.ok ()) 0 (by decide)

/-- C8: every run of `main` exits with code 0 — each failure is caught at
the top-level boundary and turned into a printed message — and in
particular a write refused by the file system is reported as the `OSError`
(IOFailure) outcome with no file produced. -/
theorem c8_errors_handled (s : String) (w : String → Except String Unit)
    (s0 : RngState) :
    (pymain s w s0).exitCode = 0 ∧
    (∀ e, pyStrip s ≠ "" → w (resolveFilename (pyStrip s)) = Except.error e →
      (pymain s w s0).outcome = Outcome.ioError e ∧
      (pymain s w s0).fileWritten = none) := by
  refine ⟨?_, ?_⟩
  · by_cases hb : pyStrip s = ""
    · simp [pymain, hb]
    · cases hw : w (resolveFilename (pyStrip s)) <;> simp [pymain, hb, hw]
  · intro e hne hw
    constructor <;> simp [pymain, hne, hw]

/-- C8 (witness): a run whose write is refused exits 0 and reports the
IOFailure message. -/
theorem c8_errors_handled_witness :
    (pymain "report" (fun _ => Except.error "Permission denied") 0).exitCode
      = 0 ∧
    (pymain "report" (fun _ => Except.error "Permission denied") 0).outcome
      = Outcome.ioError "Permission denied" ∧
    (pymain "report" (fun _ => Except.error "Permission denied") 0).fileWritten
      = none := by
  have h := c8_errors_handled "report" (fun _ => Except.error "Permission denied") 0
  have h2 := h.2 "Permission denied" (by decide) rfl
  exact ⟨h.1, h2.1, h2.2⟩

/-- C9: `generate_sales_data` at row count 0 returns an empty dataset
without an error, while any negative row count is rejected with the
`ValueError` raised by `pd.date_range`. -/
theorem c9_rowcount_boundary (s0 : RngState) (rows : Int) (hneg : rows < 0) :
    generate_sales_data 0 s0 = Except.ok ([], npSeed 42) ∧
    generate_sales_data rows s0 =
      Except.error "periods must be a non-negative integer" := by
  constructor
  · rfl
  · unfold generate_sales_data
    rw [if_pos hneg]

/-- C9 (witness): the boundary behaviour at row counts 0 and -1. -/
theorem c9_rowcount_boundary_witness :
    generate_sales_data 0 0 = Except.ok ([], npSeed 42) ∧
    generate_sales_data (-1) 0 =
      Except.error "periods must be a non-negative integer" :=
  c9_rowcount_boundary 0 (-1) (by decide)

/-- C10: a successful run of `main` always carries the dataset produced by
`generate_sales_data` at its default row count — a fixed 100-record value,
independent of the user's input and of the ambient random state. -/
theorem c10_default_rowcount (s : String) (w : String → Except String Unit)
    (s0 : RngState) (p : String)
    (hsucc : (pymain s w s0).outcome = Outcome.success p) :
    (pymain s w s0).dataset = some defaultDataset ∧
    defaultDataset.length = 100 := by
  refine ⟨?_, ?_⟩
  · by_cases hb : pyStrip s = ""
    · exfalso
      simp [pymain, hb] at hsucc
    · cases hw : w (resolveFilename (pyStrip s)) with
      | ok u =>
        have : (pymain s w s0).dataset = some ((generateCore 100 s0).1) := by
          simp [pymain, hb, hw]
        rw [this]
        rfl
      | error e =>
        have : (pymain s w s0).dataset = some ((generateCore 100 s0).1) := by
          simp [pymain, hb, hw]
        rw [this]
        rfl
  · have h := generateCore_length 100 0
    simpa [defaultDataset] using h

/-- C10 (witness): the successful run of the end-to-end scenario carries the
fixed 100-record dataset. -/
theorem c10_default_rowcount_witness :
    (pymain "report" (fun _ => Except.ok ()) 0).dataset =
      some defaultDataset ∧
    defaultDataset.length = 100 :=
  c10_default_rowcount "report" (fun _ => Except.ok ()) 0 "report.html"
    (by decide)
